import Mathlib

/-!
Shallow embedding of the sink-management subsystem of
src/seplos/influxdb_manager.py (class InfluxDBManager).

Timestamps and numeric measurement values are modelled as integers
(the code only ever adds, doubles, takes min, and compares them).
External nondeterminism (whether the influxdb client library loads, whether
the health check passes, whether a downstream write raises) is passed in as
explicit outcome parameters.
-/

namespace Seplos

/-- Outcome of one call to InfluxDBManager._setup_client (lines 61-93):
the client library import may fail (ImportError), the health check may
pass or fail, or some other exception may be raised. -/
inductive SetupResult where
  | importError
  | healthPass
  | healthFail
  | exnRaised
deriving DecidableEq, Repr

/-- A Python value stored in a measurement dict: numeric (int/float),
a string, or None.  Only numerics survive the filter
`isinstance(v, (int, float)) and v is not None` (lines 210, 278). -/
inductive Value where
  | num (q : ℤ)
  | str (s : String)
  | vnone
deriving DecidableEq, Repr

/-- State of an InfluxDBManager instance: the fields assigned in
__init__ (lines 28-56) that the sink logic reads or writes.
Dictionaries last_write_time and last_values are modelled as
functions from key to Option. -/
structure Manager where
  enabled : Bool
  connected : Bool
  writeInterval : ℤ
  publishMode : String
  lastWriteTime : String → Option ℤ
  lastValues : String → Option (List (String × ℤ))
  reconnectAttempts : ℕ
  maxReconnectAttempts : ℕ
  reconnectDelay : ℤ
  maxReconnectDelay : ℤ
  lastReconnectAttempt : ℤ
  writesTotal : ℕ
  writesFailed : ℕ
  lastSuccessfulWrite : ℤ
  reconnectCount : ℕ

/-- Point update of a string-keyed map. -/
def updF {α : Type} (f : String → Option α) (k : String) (v : α) :
    String → Option α :=
  fun x => if x = k then some v else f x

/-- RETRY_MAX_ATTEMPTS (line 10). -/
def RETRY_MAX_ATTEMPTS : ℕ := 10

/-- RETRY_INITIAL_DELAY in seconds (line 11). -/
def RETRY_INITIAL_DELAY : ℤ := 2

/-- RETRY_MAX_DELAY in seconds (line 12). -/
def RETRY_MAX_DELAY : ℤ := 60

/-- RETRY_BACKOFF_FACTOR (line 13). -/
def RETRY_BACKOFF_FACTOR : ℤ := 2

/-- The manager state right after the field assignments of __init__
(lines 29-56), before _setup_client_with_retry runs.  url/token/org/bucket
do not influence the modelled logic beyond the constructor guard and are
omitted. -/
def initManager (enabled : Bool) (writeInterval : ℤ) (publishMode : String) :
    Manager where
  enabled := enabled
  connected := false
  writeInterval := writeInterval
  publishMode := publishMode
  lastWriteTime := fun _ => none
  lastValues := fun _ => none
  reconnectAttempts := 0
  maxReconnectAttempts := 10
  reconnectDelay := 5
  maxReconnectDelay := 300
  lastReconnectAttempt := 0
  writesTotal := 0
  writesFailed := 0
  lastSuccessfulWrite := 0
  reconnectCount := 0

/-- InfluxDBManager._setup_client (lines 61-93).  On a passing health
check: connected=True, reconnect_attempts=0, reconnect_delay=5
(lines 81-83).  On a failing health check or a generic exception:
connected=False (lines 87, 93).  On ImportError: enabled=False and
connected is left untouched (lines 88-90). -/
def setupClient (m : Manager) (r : SetupResult) : Manager :=
  match r with
  | .healthPass =>
      { m with connected := true, reconnectAttempts := 0, reconnectDelay := 5 }
  | .healthFail => { m with connected := false }
  | .importError => { m with enabled := false }
  | .exnRaised => { m with connected := false }

/-- Loop body of InfluxDBManager._setup_client_with_retry (lines 95-119).
One SetupResult per loop iteration; the returned list holds the delays
actually slept (the time.sleep(delay) calls at line 113, executed only
when attempt < RETRY_MAX_ATTEMPTS, i.e. when further iterations remain).
The caller passes a list of length RETRY_MAX_ATTEMPTS, matching
range(1, RETRY_MAX_ATTEMPTS + 1). -/
def setupRetryGo (m : Manager) (delay : ℤ) :
    List SetupResult → Manager × List ℤ
  | [] => (m, [])
  | r :: rest =>
      let m1 := setupClient m r
      if m1.connected then (m1, [])
      else if !m1.enabled then (m1, [])
      else
        match rest with
        | [] => (m1, [])
        | _ :: _ =>
            let p := setupRetryGo m1 (min (delay * RETRY_BACKOFF_FACTOR) RETRY_MAX_DELAY) rest
            (p.1, delay :: p.2)

/-- InfluxDBManager._setup_client_with_retry (lines 95-119): the startup
retry loop, starting from delay RETRY_INITIAL_DELAY. -/
def setupClientWithRetry (m : Manager) (results : List SetupResult) :
    Manager × List ℤ :=
  setupRetryGo m RETRY_INITIAL_DELAY results

/-- Which return site of InfluxDBManager._try_reconnect was taken. -/
inductive TryResult where
  | tooSoon
  | maxedOut
  | failed
  | succeeded
deriving DecidableEq, Repr

/-- InfluxDBManager._try_reconnect (lines 121-165).  now stands for
time.time(); r is the outcome of the inner _setup_client call.
Returns which exit was taken together with the new state.
tooSoon: line 127; maxedOut: line 135; succeeded: line 159 (after
reconnect_count += 1, line 157); failed: line 165 after the exponential
backoff update reconnect_delay = min(reconnect_delay * 2,
max_reconnect_delay) (line 164). -/
def tryReconnect (m : Manager) (now : ℤ) (r : SetupResult) :
    TryResult × Manager :=
  if now - m.lastReconnectAttempt < m.reconnectDelay then
    (.tooSoon, m)
  else if m.reconnectAttempts ≥ m.maxReconnectAttempts ∧
      ¬ (now - m.lastReconnectAttempt > m.maxReconnectDelay) then
    (.maxedOut, m)
  else
    let m1 :=
      if m.reconnectAttempts ≥ m.maxReconnectAttempts then
        { m with reconnectAttempts := 0, reconnectDelay := 5 }
      else m
    let m2 := { m1 with lastReconnectAttempt := now,
                        reconnectAttempts := m1.reconnectAttempts + 1 }
    let m3 := setupClient m2 r
    if m3.connected then
      (.succeeded, { m3 with reconnectCount := m3.reconnectCount + 1 })
    else
      (.failed, { m3 with reconnectDelay := min (m3.reconnectDelay * 2) m3.maxReconnectDelay })

/-- InfluxDBManager.is_enabled (lines 167-171): lazily reconnect when
enabled but not connected, then report enabled AND connected on the
(possibly updated) state. -/
def isEnabled (m : Manager) (now : ℤ) (r : SetupResult) : Bool × Manager :=
  let m1 := if m.enabled ∧ ¬ m.connected then (tryReconnect m now r).2 else m
  (m1.enabled && m1.connected, m1)

/-- Lookup of a field in a cached measurement dict (Python dict access /
the `field not in ...` test), dicts modelled as association lists. -/
def lookupField (fs : List (String × ℤ)) (f : String) : Option ℤ :=
  (fs.find? (fun p => p.1 == f)).map Prod.snd

/-- The numeric filter `{k: v for k, v in data.items() if
isinstance(v, (int, float)) and v is not None}` (lines 210, 278). -/
def filterNumeric (data : List (String × Value)) : List (String × ℤ) :=
  data.filterMap fun p =>
    match p.2 with
    | .num q => some (p.1, q)
    | _ => none

/-- InfluxDBManager._should_write (lines 173-194).  In mode 'all' accept
unconditionally.  Otherwise: if the key has no last_values entry, seed it
with the data and accept (lines 180-182); else scan the fields of the NEW
data and mark changed when a field is missing from the cached dict or has
a different value (lines 185-189); when changed, overwrite the cache with
the new data (lines 191-192); return changed. -/
def shouldWrite (m : Manager) (key : String) (data : List (String × ℤ)) :
    Bool × Manager :=
  if m.publishMode = "all" then (true, m)
  else
    match m.lastValues key with
    | none => (true, { m with lastValues := updF m.lastValues key data })
    | some last =>
        let changed := data.any fun fv =>
          match lookupField last fv.1 with
          | none => true
          | some w => w ≠ fv.2
        if changed then
          (true, { m with lastValues := updF m.lastValues key data })
        else (false, m)

/-- Which return path a public write call took. -/
inductive WriteResult where
  | disabled
  | rateLimited
  | notChanged
  | written
  | writeError
deriving DecidableEq, Repr

/-- Common body of InfluxDBManager.write_battery_data (lines 196-262) and
write_pack_data (lines 264-320); the two differ only in the key and in the
Point field lists, which do not touch the modelled state.  Steps: the
is_enabled guard (198-199 / 266-267); the per-key rate limit (205-207 /
273-275); the numeric filter plus _should_write (210-212 / 278-280); on
acceptance last_write_time[key] = now and writes_total += 1 (214-215 /
282-283); then the try block whose success sets last_successful_write
(257 / 315) and whose failure increments writes_failed and clears
connected (260-261 / 318-319), absorbing the exception. -/
def writeGate (m : Manager) (key : String) (data : List (String × Value))
    (now : ℤ) (r : SetupResult) (writeOk : Bool) : WriteResult × Manager :=
  let p := isEnabled m now r
  let m1 := p.2
  if !p.1 then (.disabled, m1)
  else
    match m1.lastWriteTime key with
    | some t =>
        if now - t < m1.writeInterval then (.rateLimited, m1)
        else writeGateBody m1 key data now writeOk
    | none => writeGateBody m1 key data now writeOk
where
  /-- Continuation after the rate-limit check (lines 210-262). -/
  writeGateBody (m1 : Manager) (key : String) (data : List (String × Value))
      (now : ℤ) (writeOk : Bool) : WriteResult × Manager :=
    let wd := filterNumeric data
    let q := shouldWrite m1 key wd
    let m2 := q.2
    if !q.1 then (.notChanged, m2)
    else
      let m3 := { m2 with lastWriteTime := updF m2.lastWriteTime key now,
                          writesTotal := m2.writesTotal + 1 }
      if writeOk then (.written, { m3 with lastSuccessfulWrite := now })
      else (.writeError, { m3 with writesFailed := m3.writesFailed + 1,
                                   connected := false })

/-- Key string f-string `battery_{battery_id}` (line 202). -/
def batteryKey (batteryId : String) : String := "battery_" ++ batteryId

/-- Key constant for pack writes (line 270). -/
def packKey : String := "pack"

/-- InfluxDBManager.write_battery_data (lines 196-262). -/
def writeBatteryData (m : Manager) (batteryId : String)
    (data : List (String × Value)) (now : ℤ) (r : SetupResult)
    (writeOk : Bool) : WriteResult × Manager :=
  writeGate m (batteryKey batteryId) data now r writeOk

/-- InfluxDBManager.write_pack_data (lines 264-320). -/
def writePackData (m : Manager) (data : List (String × Value)) (now : ℤ)
    (r : SetupResult) (writeOk : Bool) : WriteResult × Manager :=
  writeGate m packKey data now r writeOk

/-- The dict returned by InfluxDBManager.get_stats (lines 322-332). -/
structure Stats where
  connected : Bool
  writes_total : ℕ
  writes_failed : ℕ
  last_successful_write : ℤ
  reconnect_attempts : ℕ
  reconnect_count : ℕ
  publish_mode : String
deriving DecidableEq, Repr

/-- InfluxDBManager.get_stats (lines 322-332). -/
def getStats (m : Manager) : Stats where
  connected := m.connected
  writes_total := m.writesTotal
  writes_failed := m.writesFailed
  last_successful_write := m.lastSuccessfulWrite
  reconnect_attempts := m.reconnectAttempts
  reconnect_count := m.reconnectCount
  publish_mode := m.publishMode

/-- InfluxDBManager.close (lines 334-346): releases client resources
(close errors absorbed) and clears connected. -/
def closeManager (m : Manager) : Manager := { m with connected := false }

/-- One public operation on the sink, for stating properties over
operation sequences. -/
inductive Op where
  | writeBattery (batteryId : String) (data : List (String × Value))
      (now : ℤ) (r : SetupResult) (writeOk : Bool)
  | writePack (data : List (String × Value)) (now : ℤ) (r : SetupResult)
      (writeOk : Bool)
  | close

/-- Apply one public operation to the manager state. -/
def applyOp (m : Manager) : Op → Manager
  | .writeBattery b d now r ok => (writeBatteryData m b d now r ok).2
  | .writePack d now r ok => (writePackData m d now r ok).2
  | .close => closeManager m

/-- Apply a sequence of public operations, first element first. -/
def applyOps (m : Manager) : List Op → Manager
  | [] => m
  | op :: rest => applyOps (applyOp m op) rest

/-- Replace both caches of a manager wholesale (proof device for frame
reasoning: no connection-handling code reads or writes the caches). -/
def withCaches (m : Manager) (lw : String → Option ℤ)
    (lv : String → Option (List (String × ℤ))) : Manager :=
  { m with lastWriteTime := lw, lastValues := lv }

/-- Replace the write_interval of a manager (proof device: the
connection-handling code never reads it). -/
def withInterval (m : Manager) (w : ℤ) : Manager := { m with writeInterval := w }

/-- The publish_mode string 'changed'. -/
def changedMode : String := "changed"

/-- An arbitrary concrete publish key used in concrete scenarios. -/
def keyK : String := "k"

/-- Concrete field name. -/
def fieldA : String := "a"

/-- Concrete field name. -/
def fieldB : String := "b"

/-- Concrete battery id used in concrete scenarios. -/
def batIdOne : String := "1"

/-- Concrete field name for state-of-charge. -/
def socField : String := "soc"

/-- A freshly constructed, connected manager with write_interval=5 and
publish_mode='changed' (constructor fields, startup connect succeeded). -/
def m0 : Manager := { initManager true 5 changedMode with connected := true }

/-- Measurement dict soc=80. -/
def soc80 : List (String × Value) := [(socField, .num 80)]

/-- Measurement dict soc=81. -/
def soc81 : List (String × Value) := [(socField, .num 81)]

/-- Scenario state: write soc=80 for battery 1 at t=0. -/
def scen1 : WriteResult × Manager := writeBatteryData m0 batIdOne soc80 0 .healthFail true

/-- Scenario state: then identical data at t=2. -/
def scen2 : WriteResult × Manager := writeBatteryData scen1.2 batIdOne soc80 2 .healthFail true

/-- Scenario state: then identical data at t=6. -/
def scen3 : WriteResult × Manager := writeBatteryData scen2.2 batIdOne soc80 6 .healthFail true

/-- Scenario state: then soc=81 at t=7. -/
def scen4 : WriteResult × Manager := writeBatteryData scen3.2 batIdOne soc81 7 .healthFail true

/-- A manager in CHANGED mode whose cache for key k holds fields a=1, b=2. -/
def mC1 : Manager := { initManager true 5 changedMode with
  lastValues := updF (fun _ => none) keyK [(fieldA, 1), (fieldB, 2)] }

/-- A manager after construction with enabled=True and all 10 startup
connection attempts failing (health check failures). -/
def mFail : Manager :=
  (setupClientWithRetry (initManager true 5 changedMode) (List.replicate 10 .healthFail)).1

/-- Three public battery writes whose lazy reconnects all fail. -/
def opsA : List Op :=
  [.writeBattery batIdOne [] 10 .healthFail true,
   .writeBattery batIdOne [] 30 .healthFail true,
   .writeBattery batIdOne [] 60 .healthFail true]

/-- The same three writes followed by one whose lazy reconnect succeeds. -/
def opsB : List Op := opsA ++ [.writeBattery batIdOne [] 110 .healthPass true]

/-- A manager whose lazy-reconnect episode has exhausted its attempt cap. -/
def mC4 : Manager := { initManager true 5 changedMode with reconnectAttempts := 10 }

/-- A manager constructed with enabled=False (stands in for the state after
an ImportError disabled the sink). -/
def mDis : Manager := initManager false 5 changedMode

/-- The default-constructed manager before any connection attempt. -/
def mInit : Manager := initManager true 5 changedMode




theorem updF_eq_of_ne {α : Type} (f : String → Option α) (k x : String) (v : α)
    (h : x ≠ k) : updF f k v x = f x := by
  simp [updF, h]

theorem updF_self {α : Type} (f : String → Option α) (k : String) (v : α) :
    updF f k v k = some v := by simp [updF]

theorem tryReconnect_preserves (m : Manager) (now : ℤ) (r : SetupResult) :
    ((tryReconnect m now r).2).lastWriteTime = m.lastWriteTime ∧
    ((tryReconnect m now r).2).lastValues = m.lastValues ∧
    ((tryReconnect m now r).2).writeInterval = m.writeInterval ∧
    ((tryReconnect m now r).2).publishMode = m.publishMode ∧
    ((tryReconnect m now r).2).writesTotal = m.writesTotal ∧
    ((tryReconnect m now r).2).writesFailed = m.writesFailed ∧
    ((tryReconnect m now r).2).lastSuccessfulWrite = m.lastSuccessfulWrite ∧
    m.reconnectCount ≤ ((tryReconnect m now r).2).reconnectCount := by
  unfold tryReconnect setupClient
  cases r <;> dsimp only <;> repeat' split <;> simp_all



theorem tryReconnect_withCaches (m : Manager) (lw : String → Option ℤ)
    (lv : String → Option (List (String × ℤ))) (now : ℤ) (r : SetupResult) :
    tryReconnect (withCaches m lw lv) now r
      = ((tryReconnect m now r).1, withCaches (tryReconnect m now r).2 lw lv) := by
  unfold tryReconnect setupClient withCaches
  cases r <;> dsimp only <;> repeat' split <;> simp_all

theorem isEnabled_withCaches (m : Manager) (lw : String → Option ℤ)
    (lv : String → Option (List (String × ℤ))) (now : ℤ) (r : SetupResult) :
    isEnabled (withCaches m lw lv) now r
      = ((isEnabled m now r).1, withCaches (isEnabled m now r).2 lw lv) := by
  unfold isEnabled
  dsimp only [withCaches]
  rw [show ({ m with lastWriteTime := lw, lastValues := lv } : Manager) = withCaches m lw lv from rfl]
  rw [tryReconnect_withCaches]
  dsimp only [withCaches]
  split <;> simp_all [withCaches]



theorem isEnabled_preserves (m : Manager) (now : ℤ) (r : SetupResult) :
    ((isEnabled m now r).2).lastWriteTime = m.lastWriteTime ∧
    ((isEnabled m now r).2).lastValues = m.lastValues ∧
    ((isEnabled m now r).2).writeInterval = m.writeInterval ∧
    ((isEnabled m now r).2).publishMode = m.publishMode ∧
    ((isEnabled m now r).2).writesTotal = m.writesTotal ∧
    ((isEnabled m now r).2).writesFailed = m.writesFailed ∧
    ((isEnabled m now r).2).lastSuccessfulWrite = m.lastSuccessfulWrite ∧
    m.reconnectCount ≤ ((isEnabled m now r).2).reconnectCount := by
  unfold isEnabled
  dsimp only
  split
  · exact tryReconnect_preserves m now r
  · simp

theorem shouldWrite_lastWriteTime (m : Manager) (key : String)
    (d : List (String × ℤ)) :
    ((shouldWrite m key d).2).lastWriteTime = m.lastWriteTime := by
  unfold shouldWrite
  split
  · rfl
  split
  · rfl
  dsimp only
  split <;> rfl

theorem shouldWrite_lastValues_ne (m : Manager) (key : String)
    (d : List (String × ℤ)) (k : String) (hk : k ≠ key) :
    ((shouldWrite m key d).2).lastValues k = m.lastValues k := by
  unfold shouldWrite
  split
  · rfl
  split
  · exact updF_eq_of_ne m.lastValues key k d hk
  dsimp only
  split
  · exact updF_eq_of_ne m.lastValues key k d hk
  · rfl

theorem writeGate_frame (m : Manager) (key : String) (d : List (String × Value))
    (now : ℤ) (r : SetupResult) (ok : Bool) (k : String) (hk : k ≠ key) :
    ((writeGate m key d now r ok).2).lastWriteTime k = m.lastWriteTime k ∧
    ((writeGate m key d now r ok).2).lastValues k = m.lastValues k := by
  have hIE := isEnabled_preserves m now r
  have hSW := shouldWrite_lastWriteTime (isEnabled m now r).2 key (filterNumeric d)
  have hSV := shouldWrite_lastValues_ne (isEnabled m now r).2 key (filterNumeric d) k hk
  unfold writeGate writeGate.writeGateBody
  dsimp only
  split
  · exact ⟨hIE.1 ▸ rfl, hIE.2.1 ▸ rfl⟩
  split
  · split
    · exact ⟨hIE.1 ▸ rfl, hIE.2.1 ▸ rfl⟩
    · split
      · exact ⟨hSW ▸ hIE.1 ▸ rfl, hSV.trans (congrFun hIE.2.1 k)⟩
      · split <;>
          exact ⟨(updF_eq_of_ne _ key k _ hk).trans (hSW.symm ▸ hIE.1 ▸ rfl),
                 hSV.trans (congrFun hIE.2.1 k)⟩
  · split
    · exact ⟨hSW ▸ hIE.1 ▸ rfl, hSV.trans (congrFun hIE.2.1 k)⟩
    · split <;>
        exact ⟨(updF_eq_of_ne _ key k _ hk).trans (hSW.symm ▸ hIE.1 ▸ rfl),
               hSV.trans (congrFun hIE.2.1 k)⟩



theorem shouldWrite_fst_congr (ma mb : Manager) (key : String)
    (d : List (String × ℤ)) (hmode : ma.publishMode = mb.publishMode)
    (hlv : ma.lastValues key = mb.lastValues key) :
    (shouldWrite ma key d).1 = (shouldWrite mb key d).1 := by
  unfold shouldWrite
  rw [hmode, hlv]
  split
  · rfl
  dsimp only
  rcases hmb : mb.lastValues key with _ | last
  · rfl
  · dsimp only
    split <;> rfl

theorem writeGateBody_fst_congr (ma mb : Manager) (key : String)
    (d : List (String × Value)) (now : ℤ) (ok : Bool)
    (hmode : ma.publishMode = mb.publishMode)
    (hlv : ma.lastValues key = mb.lastValues key) :
    (writeGate.writeGateBody ma key d now ok).1
      = (writeGate.writeGateBody mb key d now ok).1 := by
  have h := shouldWrite_fst_congr ma mb key (filterNumeric d) hmode hlv
  unfold writeGate.writeGateBody
  dsimp only
  rw [h]
  rcases hq : (shouldWrite mb key (filterNumeric d)).1 <;> cases ok <;> simp [hq]



theorem withCaches_lastWriteTime (m : Manager) (lw : String → Option ℤ)
    (lv : String → Option (List (String × ℤ))) :
    (withCaches m lw lv).lastWriteTime = lw := rfl

theorem withCaches_lastValues (m : Manager) (lw : String → Option ℤ)
    (lv : String → Option (List (String × ℤ))) :
    (withCaches m lw lv).lastValues = lv := rfl

theorem withCaches_writeInterval (m : Manager) (lw : String → Option ℤ)
    (lv : String → Option (List (String × ℤ))) :
    (withCaches m lw lv).writeInterval = m.writeInterval := rfl

theorem writeGate_fst_indep (m : Manager) (key : String)
    (d : List (String × Value)) (now : ℤ) (r : SetupResult) (ok : Bool)
    (k : String) (t : ℤ) (lv : List (String × ℤ)) (hk : k ≠ key) :
    (writeGate { m with lastWriteTime := updF m.lastWriteTime k t,
                        lastValues := updF m.lastValues k lv } key d now r ok).1
      = (writeGate m key d now r ok).1 := by
  have hIE := isEnabled_preserves m now r
  have hlv2 : updF m.lastValues k lv key = ((isEnabled m now r).2).lastValues key := by
    rw [updF_eq_of_ne m.lastValues k key lv (Ne.symm hk)]
    exact (congrFun hIE.2.1 key).symm
  have hWC := isEnabled_withCaches m (updF m.lastWriteTime k t)
    (updF m.lastValues k lv) now r
  have hrepr : ({ m with lastWriteTime := updF m.lastWriteTime k t, lastValues := updF m.lastValues k lv } : Manager) = withCaches m (updF m.lastWriteTime k t) (updF m.lastValues k lv) := rfl
  have hbody := writeGateBody_fst_congr
    (withCaches (isEnabled m now r).2 (updF m.lastWriteTime k t) (updF m.lastValues k lv))
    (isEnabled m now r).2 key d now ok rfl
    ((withCaches_lastValues _ _ _).symm ▸ hlv2)
  unfold writeGate
  rw [hrepr, hWC]
  dsimp only
  cases hp : (isEnabled m now r).1 with
  | false => simp
  | true =>
      simp only [hp, Bool.not_true, Bool.false_eq_true, if_false]
      rw [withCaches_lastWriteTime, withCaches_writeInterval,
        updF_eq_of_ne m.lastWriteTime k key t (Ne.symm hk), ← congrFun hIE.1 key]
      rcases hw : ((isEnabled m now r).2).lastWriteTime key with _ | t0
      · exact hbody
      · dsimp only
        by_cases hc : now - t0 < ((isEnabled m now r).2).writeInterval
        · rw [if_pos hc, if_pos hc]
        · rw [if_neg hc, if_neg hc]
          exact hbody



theorem shouldWrite_counters (m : Manager) (key : String) (d : List (String × ℤ)) :
    ((shouldWrite m key d).2).writesTotal = m.writesTotal ∧
    ((shouldWrite m key d).2).writesFailed = m.writesFailed ∧
    ((shouldWrite m key d).2).lastSuccessfulWrite = m.lastSuccessfulWrite ∧
    ((shouldWrite m key d).2).connected = m.connected ∧
    ((shouldWrite m key d).2).reconnectCount = m.reconnectCount := by
  unfold shouldWrite
  split
  · exact ⟨rfl, rfl, rfl, rfl, rfl⟩
  split
  · exact ⟨rfl, rfl, rfl, rfl, rfl⟩
  dsimp only
  split <;> exact ⟨rfl, rfl, rfl, rfl, rfl⟩

theorem writeGate_counters (m : Manager) (key : String) (d : List (String × Value))
    (now : ℤ) (r : SetupResult) (ok : Bool) :
    (((writeGate m key d now r ok).1 = .written ∨
      (writeGate m key d now r ok).1 = .writeError) →
        ((writeGate m key d now r ok).2).writesTotal = m.writesTotal + 1) ∧
    ((writeGate m key d now r ok).1 = .written →
        ((writeGate m key d now r ok).2).lastSuccessfulWrite = now ∧
        ((writeGate m key d now r ok).2).writesFailed = m.writesFailed) ∧
    ((writeGate m key d now r ok).1 = .writeError →
        ((writeGate m key d now r ok).2).writesFailed = m.writesFailed + 1 ∧
        ((writeGate m key d now r ok).2).connected = false) ∧
    (((writeGate m key d now r ok).1 = .disabled ∨
      (writeGate m key d now r ok).1 = .rateLimited ∨
      (writeGate m key d now r ok).1 = .notChanged) →
        ((writeGate m key d now r ok).2).writesTotal = m.writesTotal ∧
        ((writeGate m key d now r ok).2).writesFailed = m.writesFailed) := by
  have hIE := isEnabled_preserves m now r
  have hSW := shouldWrite_counters (isEnabled m now r).2 key (filterNumeric d)
  unfold writeGate writeGate.writeGateBody
  dsimp only
  cases hp : (isEnabled m now r).1 with
  | false => simp_all
  | true =>
      simp only [hp, Bool.not_true, Bool.false_eq_true, if_false]
      rcases hw : ((isEnabled m now r).2).lastWriteTime key with _ | t0 <;>
        dsimp only
      · rcases hq : (shouldWrite (isEnabled m now r).2 key (filterNumeric d)).1 <;>
          cases ok <;> simp_all
      · by_cases hc : now - t0 < ((isEnabled m now r).2).writeInterval
        · rw [if_pos hc]
          simp_all
        · rw [if_neg hc]
          rcases hq : (shouldWrite (isEnabled m now r).2 key (filterNumeric d)).1 <;>
            cases ok <;> simp_all



theorem writeGate_counters_mono (m : Manager) (key : String)
    (d : List (String × Value)) (now : ℤ) (r : SetupResult) (ok : Bool) :
    m.writesTotal ≤ ((writeGate m key d now r ok).2).writesTotal ∧
    m.writesFailed ≤ ((writeGate m key d now r ok).2).writesFailed ∧
    m.reconnectCount ≤ ((writeGate m key d now r ok).2).reconnectCount := by
  have hIE := isEnabled_preserves m now r
  have hSW := shouldWrite_counters (isEnabled m now r).2 key (filterNumeric d)
  unfold writeGate writeGate.writeGateBody
  dsimp only
  cases hp : (isEnabled m now r).1 with
  | false => simp_all
  | true =>
      simp only [hp, Bool.not_true, Bool.false_eq_true, if_false]
      rcases hw : ((isEnabled m now r).2).lastWriteTime key with _ | t0 <;>
        dsimp only
      · rcases hq : (shouldWrite (isEnabled m now r).2 key (filterNumeric d)).1 <;>
          cases ok <;> simp_all
      · by_cases hc : now - t0 < ((isEnabled m now r).2).writeInterval
        · rw [if_pos hc]
          simp_all
        · rw [if_neg hc]
          rcases hq : (shouldWrite (isEnabled m now r).2 key (filterNumeric d)).1 <;>
            cases ok <;> simp_all

theorem applyOp_counters_mono (m : Manager) (op : Op) :
    m.writesTotal ≤ ((applyOp m op)).writesTotal ∧
    m.writesFailed ≤ ((applyOp m op)).writesFailed ∧
    m.reconnectCount ≤ ((applyOp m op)).reconnectCount := by
  cases op with
  | writeBattery b d now r ok =>
      exact writeGate_counters_mono m (batteryKey b) d now r ok
  | writePack d now r ok =>
      exact writeGate_counters_mono m packKey d now r ok
  | close => exact ⟨le_refl _, le_refl _, le_refl _⟩

theorem applyOps_counters_mono (m : Manager) (ops : List Op) :
    m.writesTotal ≤ ((applyOps m ops)).writesTotal ∧
    m.writesFailed ≤ ((applyOps m ops)).writesFailed ∧
    m.reconnectCount ≤ ((applyOps m ops)).reconnectCount := by
  induction ops generalizing m with
  | nil => exact ⟨le_refl _, le_refl _, le_refl _⟩
  | cons op rest ih =>
      have h1 := applyOp_counters_mono m op
      have h2 := ih (applyOp m op)
      exact ⟨h1.1.trans h2.1, h1.2.1.trans h2.2.1, h1.2.2.trans h2.2.2⟩



/-- Claim C4: a lazy reconnect attempt is performed only if the time since
the last attempt is at least the current backoff delay AND the attempt count
is below the maximum, except that when more than max_reconnect_delay seconds
(300, the episode-reset gap) have elapsed since the last attempt the episode
resets (counter to 0, delay to the floor) and a new attempt is allowed (a
failed reset attempt leaves the counter at 1); consequently once the counter
has reached the maximum, no attempt happens before the gap has passed. -/
theorem tryReconnect_gate_thm (m : Manager) (now : ℤ) (r : SetupResult) :
    (((tryReconnect m now r).1 = .failed ∨ (tryReconnect m now r).1 = .succeeded) →
      m.reconnectDelay ≤ now - m.lastReconnectAttempt ∧
      (m.reconnectAttempts < m.maxReconnectAttempts ∨
        m.maxReconnectDelay < now - m.lastReconnectAttempt)) ∧
    ((m.reconnectDelay ≤ now - m.lastReconnectAttempt ∧
      m.maxReconnectDelay < now - m.lastReconnectAttempt) →
      ((tryReconnect m now r).1 = .failed ∨ (tryReconnect m now r).1 = .succeeded)) ∧
    ((tryReconnect m now r).1 = .failed →
      m.reconnectAttempts ≥ m.maxReconnectAttempts →
      ((tryReconnect m now r).2).reconnectAttempts = 1) ∧
    (m.reconnectAttempts ≥ m.maxReconnectAttempts →
      now - m.lastReconnectAttempt ≤ m.maxReconnectDelay →
      ((tryReconnect m now r).1 = .tooSoon ∨ (tryReconnect m now r).1 = .maxedOut)) := by
  unfold tryReconnect
  by_cases h1 : now - m.lastReconnectAttempt < m.reconnectDelay
  · rw [if_pos h1]
    refine ⟨?_, ?_, ?_, ?_⟩
    · rintro (h | h) <;> simp at h
    · rintro ⟨ha, _⟩
      exact absurd ha (not_le.mpr h1)
    · intro h
      simp at h
    · intro _ _
      left
      rfl
  · rw [if_neg h1]
    by_cases h2 : m.reconnectAttempts ≥ m.maxReconnectAttempts ∧
        ¬ (now - m.lastReconnectAttempt > m.maxReconnectDelay)
    · rw [if_pos h2]
      refine ⟨?_, ?_, ?_, ?_⟩
      · rintro (h | h) <;> simp at h
      · rintro ⟨_, hb⟩
        exact absurd hb h2.2
      · intro h
        simp at h
      · intro _ _
        right
        rfl
    · rw [if_neg h2]
      dsimp only
      refine ⟨?_, ?_, ?_, ?_⟩
      · intro _
        refine ⟨le_of_not_lt h1, ?_⟩
        rcases not_and_or.mp h2 with h | h
        · exact Or.inl (lt_of_not_le h)
        · exact Or.inr (not_not.mp h)
      · intro _
        cases r <;> dsimp only [setupClient] <;> repeat' split <;> simp_all
      · intro hfail hmax
        rw [if_pos hmax] at hfail ⊢
        cases r <;> dsimp only [setupClient] at hfail ⊢ <;>
          repeat' split at hfail <;> simp_all
      · intro hmax hgap
        exact absurd ⟨hmax, not_lt.mpr hgap⟩ h2



/-- Claim C6: the steady-state reconnect delay is non-decreasing across a
failed reconnect attempt that stays within one backoff episode (no episode
reset, attempt counter below the maximum), never exceeds the configured
ceiling of 300 seconds, and a successful reconnect resets the delay to the
floor value 5 and the attempt counter to 0. -/
theorem reconnectDelay_props (m : Manager) (now : ℤ) (r : SetupResult)
    (hconn : m.connected = false)
    (h0 : 0 ≤ m.reconnectDelay)
    (hle : m.reconnectDelay ≤ m.maxReconnectDelay)
    (hmax : m.maxReconnectDelay = 300) :
    ((tryReconnect m now r).1 = .failed →
      m.reconnectAttempts < m.maxReconnectAttempts →
      m.reconnectDelay ≤ ((tryReconnect m now r).2).reconnectDelay) ∧
    (((tryReconnect m now r).2).reconnectDelay ≤ 300) ∧
    ((tryReconnect m now r).1 = .succeeded →
      ((tryReconnect m now r).2).reconnectDelay = 5 ∧
      ((tryReconnect m now r).2).reconnectAttempts = 0) := by
  unfold tryReconnect
  by_cases h1 : now - m.lastReconnectAttempt < m.reconnectDelay
  · rw [if_pos h1]
    refine ⟨?_, hmax ▸ hle, ?_⟩
    · intro h
      simp at h
    · intro h
      simp at h
  · rw [if_neg h1]
    by_cases h2 : m.reconnectAttempts ≥ m.maxReconnectAttempts ∧
        ¬ (now - m.lastReconnectAttempt > m.maxReconnectDelay)
    · rw [if_pos h2]
      refine ⟨?_, hmax ▸ hle, ?_⟩
      · intro h
        simp at h
      · intro h
        simp at h
    · rw [if_neg h2]
      dsimp only
      refine ⟨?_, ?_, ?_⟩
      · intro hfail hlt
        rw [if_neg (not_le.mpr hlt)] at hfail ⊢
        cases r <;> dsimp only [setupClient] at hfail ⊢ <;>
          repeat' split at hfail <;> simp_all <;> linarith
      · split <;> cases r <;> dsimp only [setupClient] <;>
          repeat' split <;> simp_all
      · intro hsucc
        split at hsucc <;> cases r <;>
          dsimp only [setupClient] at hsucc ⊢ <;>
          repeat' split at hsucc <;> simp_all



theorem changedField_iff (last : List (String × ℤ)) (f : String) (v : ℤ) :
    ((match lookupField last f with
      | none => true
      | some w => decide (w ≠ v)) = true) ↔ lookupField last f ≠ some v := by
  rcases h : lookupField last f with _ | w <;> simp [h]

/-- Claim C1 (amended): in publish mode CHANGED, for every key with a prior
LastValueCache entry, the _should_write decision returns true iff some field
of the incoming (numeric-filtered) set is absent from the cached entry or
carries a different value.  Fields present in the cache but absent from the
incoming set (removed fields) do NOT trigger acceptance, because the loop at
lines 186-189 only scans the incoming fields.  On true the cache entry is
replaced by the new set; on false the state is unchanged. -/
theorem shouldWrite_changed_prior (m : Manager) (key : String)
    (data last : List (String × ℤ))
    (hmode : m.publishMode = changedMode)
    (hprev : m.lastValues key = some last) :
    ((shouldWrite m key data).1 = true ↔
      ∃ p ∈ data, lookupField last p.1 ≠ some p.2) ∧
    ((shouldWrite m key data).1 = true →
      (shouldWrite m key data).2
        = { m with lastValues := updF m.lastValues key data }) ∧
    ((shouldWrite m key data).1 = false → (shouldWrite m key data).2 = m) := by
  have hnall : ¬ (m.publishMode = "all") := by
    rw [hmode]
    decide
  have hiff : ((data.any fun fv => match lookupField last fv.1 with
      | none => true
      | some w => decide (w ≠ fv.2)) = true) ↔
      ∃ p ∈ data, lookupField last p.1 ≠ some p.2 := by
    rw [List.any_eq_true]
    constructor
    · rintro ⟨p, hp, hpred⟩
      exact ⟨p, hp, (changedField_iff last p.1 p.2).mp hpred⟩
    · rintro ⟨p, hp, hne⟩
      exact ⟨p, hp, (changedField_iff last p.1 p.2).mpr hne⟩
  unfold shouldWrite
  rw [if_neg hnall, hprev]
  dsimp only
  by_cases hch : (data.any fun fv => match lookupField last fv.1 with
      | none => true
      | some w => decide (w ≠ fv.2)) = true
  · rw [if_pos hch]
    refine ⟨?_, ?_, ?_⟩
    · simpa using hiff.mp hch
    · intro _
      rfl
    · intro h
      simp at h
  · rw [if_neg hch]
    refine ⟨?_, ?_, ?_⟩
    · constructor
      · intro h
        simp at h
      · intro h
        exact absurd (hiff.mpr h) hch
    · intro h
      simp at h
    · intro _
      rfl



theorem isEnabled_of_disabled (m : Manager) (now : ℤ) (r : SetupResult)
    (h : m.enabled = false) : isEnabled m now r = (false, m) := by
  simp [isEnabled, h]

theorem writeGate_of_disabled (m : Manager) (key : String)
    (d : List (String × Value)) (now : ℤ) (r : SetupResult) (ok : Bool)
    (h : m.enabled = false) :
    writeGate m key d now r ok = (.disabled, m) := by
  unfold writeGate
  rw [isEnabled_of_disabled m now r h]
  rfl

theorem closeManager_of_disconnected (m : Manager) (h : m.connected = false) :
    closeManager m = m := by
  cases m
  simp_all [closeManager]

theorem applyOps_of_disabled (m : Manager) (ops : List Op)
    (he : m.enabled = false) (hc : m.connected = false) :
    applyOps m ops = m := by
  induction ops generalizing m with
  | nil => rfl
  | cons op rest ih =>
      cases op with
      | writeBattery b d now r ok =>
          show applyOps (writeBatteryData m b d now r ok).2 rest = m
          rw [show writeBatteryData m b d now r ok = writeGate m (batteryKey b) d now r ok from rfl]
          rw [writeGate_of_disabled m (batteryKey b) d now r ok he]
          exact ih m he hc
      | writePack d now r ok =>
          show applyOps (writePackData m d now r ok).2 rest = m
          rw [show writePackData m d now r ok = writeGate m packKey d now r ok from rfl]
          rw [writeGate_of_disabled m packKey d now r ok he]
          exact ih m he hc
      | close =>
          show applyOps (closeManager m) rest = m
          rw [closeManager_of_disconnected m hc]
          exact ih m he hc

theorem tryReconnect_withInterval (m : Manager) (w : ℤ) (now : ℤ)
    (r : SetupResult) :
    tryReconnect (withInterval m w) now r
      = ((tryReconnect m now r).1, withInterval (tryReconnect m now r).2 w) := by
  unfold tryReconnect setupClient withInterval
  cases r <;> dsimp only <;> repeat' split <;> simp_all

theorem isEnabled_withInterval (m : Manager) (w : ℤ) (now : ℤ)
    (r : SetupResult) :
    isEnabled (withInterval m w) now r
      = ((isEnabled m now r).1, withInterval (isEnabled m now r).2 w) := by
  unfold isEnabled
  dsimp only [withInterval]
  rw [show ({ m with writeInterval := w } : Manager) = withInterval m w from rfl]
  rw [tryReconnect_withInterval]
  dsimp only [withInterval]
  split <;> simp_all [withInterval]

theorem writeGateBody_ne_rateLimited (m1 : Manager) (key : String)
    (d : List (String × Value)) (now : ℤ) (ok : Bool) :
    (writeGate.writeGateBody m1 key d now ok).1 ≠ .rateLimited := by
  unfold writeGate.writeGateBody
  dsimp only
  rcases hq : (shouldWrite m1 key (filterNumeric d)).1 <;> cases ok <;> simp [hq]

theorem writeGate_fresh (m : Manager) (key : String) (d : List (String × Value))
    (now : ℤ) (r : SetupResult) (ok : Bool) (w : ℤ)
    (hfresh : m.lastWriteTime key = none) :
    (writeGate m key d now r ok).1 ≠ .rateLimited ∧
    (writeGate (withInterval m w) key d now r ok).1
      = (writeGate m key d now r ok).1 := by
  have hIE := isEnabled_preserves m now r
  have hw : ((isEnabled m now r).2).lastWriteTime key = none := by
    rw [congrFun hIE.1 key, hfresh]
  have hWI := isEnabled_withInterval m w now r
  have hbody := writeGateBody_fst_congr (withInterval (isEnabled m now r).2 w)
    (isEnabled m now r).2 key d now ok rfl rfl
  unfold writeGate
  rw [hWI]
  dsimp only
  cases hp : (isEnabled m now r).1 with
  | false => simp
  | true =>
      simp only [hp, Bool.not_true, Bool.false_eq_true, if_false]
      rw [show (withInterval (isEnabled m now r).2 w).lastWriteTime = ((isEnabled m now r).2).lastWriteTime from rfl]
      rw [hw]
      dsimp only
      exact ⟨writeGateBody_ne_rateLimited _ key d now ok, hbody⟩



/-- Claim C5: when the sink is enabled and all 10 startup connection
attempts fail with the client library loadable (health-check failures), the
startup routine sleeps exactly the delays 2, 4, 8, 16, 32, 60, 60, 60, 60
(9 sleeps between 10 attempts, doubling from floor 2 capped at ceiling 60)
and returns with the sink still enabled and disconnected, not disabled. -/
theorem startup_retry_all_fail_spec :
    (setupClientWithRetry (initManager true 5 changedMode)
        (List.replicate 10 .healthFail)).2
      = [2, 4, 8, 16, 32, 60, 60, 60, 60] ∧
    mFail.enabled = true ∧ mFail.connected = false := by
  decide

/-- Claim C1, counterexample to the claim as stated: a manager in CHANGED
mode caches fields a=1, b=2 for key k; the incoming set {a: 1} has dropped
field b (present before, absent now), yet _should_write returns false and
leaves the cache unchanged — the claim asserts it must return true for
removed fields. -/
theorem changed_mode_removed_field_cex :
    mC1.publishMode = changedMode ∧
    mC1.lastValues keyK = some [(fieldA, 1), (fieldB, 2)] ∧
    lookupField [(fieldA, 1)] fieldB = none ∧
    (shouldWrite mC1 keyK [(fieldA, 1)]).1 = false ∧
    (shouldWrite mC1 keyK [(fieldA, 1)]).2.lastValues keyK
      = some [(fieldA, 1), (fieldB, 2)] := by
  decide

/-- Claim C2, counterexample to the claim as stated: a connected manager
accepts a first battery write whose downstream write fails; writes_total is
still incremented (it counts accepted/attempted writes, line 215, reached
before the try block), while the claim asserts writesTotal is incremented
exactly when the downstream write succeeds. -/
theorem writesTotal_incremented_on_failed_write_cex :
    (writeBatteryData m0 batIdOne soc80 0 .healthFail false).1 = .writeError ∧
    ((writeBatteryData m0 batIdOne soc80 0 .healthFail false).2).writesTotal = 1 ∧
    m0.writesTotal = 0 ∧
    ((writeBatteryData m0 batIdOne soc80 0 .healthFail false).2).writesFailed = 1 ∧
    ((writeBatteryData m0 batIdOne soc80 0 .healthFail false).2).connected = false := by
  decide

/-- Claim C3, counterexample to the claim as stated: starting from a
constructed manager whose 10 startup attempts failed, three public battery
writes with failing lazy reconnects drive reconnect_attempts to 3, and a
fourth write whose reconnect succeeds resets reconnect_attempts to 0 — the
stats field reconnect_attempts is NOT a monotonic counter. -/
theorem reconnectAttempts_reset_cex :
    (applyOps mFail opsA).reconnectAttempts = 3 ∧
    (applyOps mFail opsB).reconnectAttempts = 0 ∧
    (applyOps mFail opsB).reconnectCount = 1 := by
  decide


/-- Helper: a rate-limited rejection leaves both caches untouched, and any
rejected call (disabled, rate-limited or unchanged) leaves the rate-limit
timestamp map untouched. -/
theorem writeGate_reject_caches (m : Manager) (key : String)
    (d : List (String × Value)) (now : ℤ) (r : SetupResult) (ok : Bool) :
    ((writeGate m key d now r ok).1 = .rateLimited →
      ((writeGate m key d now r ok).2).lastWriteTime = m.lastWriteTime ∧
      ((writeGate m key d now r ok).2).lastValues = m.lastValues) ∧
    (((writeGate m key d now r ok).1 = .disabled ∨
      (writeGate m key d now r ok).1 = .rateLimited ∨
      (writeGate m key d now r ok).1 = .notChanged) →
      ((writeGate m key d now r ok).2).lastWriteTime = m.lastWriteTime) := by
  have hIE := isEnabled_preserves m now r
  have hSW := shouldWrite_lastWriteTime (isEnabled m now r).2 key (filterNumeric d)
  unfold writeGate writeGate.writeGateBody
  dsimp only
  cases hp : (isEnabled m now r).1 with
  | false => simp_all
  | true =>
      simp only [hp, Bool.not_true, Bool.false_eq_true, if_false]
      rcases hw : ((isEnabled m now r).2).lastWriteTime key with _ | t0 <;>
        dsimp only
      · rcases hq : (shouldWrite (isEnabled m now r).2 key (filterNumeric d)).1 <;>
          cases ok <;> simp_all
      · by_cases hc : now - t0 < ((isEnabled m now r).2).writeInterval
        · rw [if_pos hc]
          simp_all
        · rw [if_neg hc]
          rcases hq : (shouldWrite (isEnabled m now r).2 key (filterNumeric d)).1 <;>
            cases ok <;> simp_all

/-- Claim C7: the per-key rate limit is checked before the publish-mode
decision and a rate-limited rejection updates no cache; the rate-limit
timestamp is updated only on an accepted (attempted) write.  Concretely,
with write_interval=5 and mode changed: battery write soc=80 at t=0 is
accepted, identical data at t=2 is rejected by the rate limit, identical
data at t=6 is rejected as unchanged, and soc=81 at t=7 is accepted. -/
theorem rate_limit_order_spec :
    (∀ (m : Manager) (key : String) (d : List (String × Value)) (now : ℤ)
        (r : SetupResult) (ok : Bool),
      (writeGate m key d now r ok).1 = .rateLimited →
        ((writeGate m key d now r ok).2).lastWriteTime = m.lastWriteTime ∧
        ((writeGate m key d now r ok).2).lastValues = m.lastValues) ∧
    (∀ (m : Manager) (key : String) (d : List (String × Value)) (now : ℤ)
        (r : SetupResult) (ok : Bool),
      ((writeGate m key d now r ok).1 = .disabled ∨
       (writeGate m key d now r ok).1 = .rateLimited ∨
       (writeGate m key d now r ok).1 = .notChanged) →
        ((writeGate m key d now r ok).2).lastWriteTime = m.lastWriteTime) ∧
    (scen1.1 = .written ∧ scen2.1 = .rateLimited ∧
      scen3.1 = .notChanged ∧ scen4.1 = .written) := by
  refine ⟨?_, ?_, ?_⟩
  · intro m key d now r ok
    exact (writeGate_reject_caches m key d now r ok).1
  · intro m key d now r ok
    exact (writeGate_reject_caches m key d now r ok).2
  · decide

/-- Witness for C7: the t=2 call of the scenario is rate-limited and indeed
leaves both caches exactly as they were. -/
theorem rate_limit_order_witness :
    ((writeGate scen1.2 (batteryKey batIdOne) soc80 2 .healthFail true).2).lastWriteTime
      = scen1.2.lastWriteTime ∧
    ((writeGate scen1.2 (batteryKey batIdOne) soc80 2 .healthFail true).2).lastValues
      = scen1.2.lastValues :=
  rate_limit_order_spec.1 scen1.2 (batteryKey batIdOne) soc80 2 .healthFail true
    (by decide)

/-- Claim C2 (amended): for a call whose gate decision is accept,
writes_total is incremented on every attempt, regardless of downstream
success (line 215 runs before the try block); on success
last_successful_write is set to the call time and writes_failed is
untouched; on failure writes_failed is incremented and connected is
cleared, the exception being absorbed; rejected calls change neither
counter.  Stated for write_battery_data and write_pack_data. -/
theorem write_counters_spec (m : Manager) (b : String)
    (d : List (String × Value)) (now : ℤ) (r : SetupResult) (ok : Bool) :
    ((((writeBatteryData m b d now r ok).1 = .written ∨
       (writeBatteryData m b d now r ok).1 = .writeError) →
        ((writeBatteryData m b d now r ok).2).writesTotal = m.writesTotal + 1) ∧
     ((writeBatteryData m b d now r ok).1 = .written →
        ((writeBatteryData m b d now r ok).2).lastSuccessfulWrite = now ∧
        ((writeBatteryData m b d now r ok).2).writesFailed = m.writesFailed) ∧
     ((writeBatteryData m b d now r ok).1 = .writeError →
        ((writeBatteryData m b d now r ok).2).writesFailed = m.writesFailed + 1 ∧
        ((writeBatteryData m b d now r ok).2).connected = false) ∧
     (((writeBatteryData m b d now r ok).1 = .disabled ∨
       (writeBatteryData m b d now r ok).1 = .rateLimited ∨
       (writeBatteryData m b d now r ok).1 = .notChanged) →
        ((writeBatteryData m b d now r ok).2).writesTotal = m.writesTotal ∧
        ((writeBatteryData m b d now r ok).2).writesFailed = m.writesFailed)) ∧
    ((((writePackData m d now r ok).1 = .written ∨
       (writePackData m d now r ok).1 = .writeError) →
        ((writePackData m d now r ok).2).writesTotal = m.writesTotal + 1) ∧
     ((writePackData m d now r ok).1 = .written →
        ((writePackData m d now r ok).2).lastSuccessfulWrite = now ∧
        ((writePackData m d now r ok).2).writesFailed = m.writesFailed) ∧
     ((writePackData m d now r ok).1 = .writeError →
        ((writePackData m d now r ok).2).writesFailed = m.writesFailed + 1 ∧
        ((writePackData m d now r ok).2).connected = false) ∧
     (((writePackData m d now r ok).1 = .disabled ∨
       (writePackData m d now r ok).1 = .rateLimited ∨
       (writePackData m d now r ok).1 = .notChanged) →
        ((writePackData m d now r ok).2).writesTotal = m.writesTotal ∧
        ((writePackData m d now r ok).2).writesFailed = m.writesFailed)) :=
  ⟨writeGate_counters m (batteryKey b) d now r ok,
   writeGate_counters m packKey d now r ok⟩

/-- Witness for C2: a concrete accepted battery write with successful
downstream delivery increments writes_total by one. -/
theorem write_counters_witness :
    ((writeBatteryData m0 batIdOne soc80 0 .healthFail true).2).writesTotal
      = m0.writesTotal + 1 :=
  ((write_counters_spec m0 batIdOne soc80 0 .healthFail true).1).1
    (Or.inl (by decide))

/-- Claim C3 (amended): across any sequence of public operations, the stats
counters writes_total, writes_failed and reconnect_count never decrease.
The stats field reconnect_attempts is excluded: a successful connection
(line 82) and an episode reset (line 132) both set it back to 0. -/
theorem stats_counters_monotone (m : Manager) (ops : List Op) :
    (getStats m).writes_total ≤ (getStats (applyOps m ops)).writes_total ∧
    (getStats m).writes_failed ≤ (getStats (applyOps m ops)).writes_failed ∧
    (getStats m).reconnect_count ≤ (getStats (applyOps m ops)).reconnect_count :=
  applyOps_counters_mono m ops

/-- Claim C8: an ImportError while loading the client library permanently
disables the sink: _setup_client sets enabled=False (connected untouched),
the startup retry loop then returns immediately with no sleeps, is_enabled
reports false without attempting any reconnect and leaves the state
untouched, every public write call on a disabled manager returns the
disabled result with the state unchanged, and any sequence of public
operations leaves a disabled, disconnected manager exactly as it was. -/
theorem import_error_disables_spec :
    (∀ m : Manager, (setupClient m .importError).enabled = false ∧
        (setupClient m .importError).connected = m.connected) ∧
    (∀ (m : Manager) (delay : ℤ) (rest : List SetupResult),
      m.connected = false →
        setupRetryGo m delay (.importError :: rest)
          = (setupClient m .importError, [])) ∧
    (∀ (m : Manager) (now : ℤ) (r : SetupResult), m.enabled = false →
        isEnabled m now r = (false, m)) ∧
    (∀ (m : Manager) (b : String) (d : List (String × Value)) (now : ℤ)
        (r : SetupResult) (ok : Bool), m.enabled = false →
        writeBatteryData m b d now r ok = (.disabled, m) ∧
        writePackData m d now r ok = (.disabled, m)) ∧
    (∀ (m : Manager) (ops : List Op), m.enabled = false →
        m.connected = false → applyOps m ops = m) := by
  refine ⟨?_, ?_, ?_, ?_, ?_⟩
  · intro m
    exact ⟨rfl, rfl⟩
  · intro m delay rest hc
    simp [setupRetryGo, setupClient, hc]
  · intro m now r he
    exact isEnabled_of_disabled m now r he
  · intro m b d now r ok he
    exact ⟨writeGate_of_disabled m (batteryKey b) d now r ok he,
           writeGate_of_disabled m packKey d now r ok he⟩
  · intro m ops he hc
    exact applyOps_of_disabled m ops he hc

/-- Witness for C8: a write on a disabled manager is a strict no-op. -/
theorem import_error_disables_witness :
    writeBatteryData mDis batIdOne soc80 0 .healthFail true = (.disabled, mDis) :=
  (import_error_disables_spec.2.2.2.1 mDis batIdOne soc80 0 .healthFail true
    (by decide)).1

/-- Claim C9: keys are independent.  A battery write call never modifies the
rate-limit timestamp or last-value cache entry of any other key (frame
condition), and its decision never reads another key's entries: overwriting
another key's rate-limit timestamp and cached values before the call leaves
the decision unchanged. -/
theorem key_independence_spec (m : Manager) (b : String)
    (d : List (String × Value)) (now : ℤ) (r : SetupResult) (ok : Bool)
    (k : String) (t : ℤ) (lv : List (String × ℤ)) (hk : k ≠ batteryKey b) :
    ((writeBatteryData m b d now r ok).2).lastWriteTime k = m.lastWriteTime k ∧
    ((writeBatteryData m b d now r ok).2).lastValues k = m.lastValues k ∧
    (writeBatteryData { m with lastWriteTime := updF m.lastWriteTime k t, lastValues := updF m.lastValues k lv } b d now r ok).1 = (writeBatteryData m b d now r ok).1 :=
  ⟨(writeGate_frame m (batteryKey b) d now r ok k hk).1,
   (writeGate_frame m (batteryKey b) d now r ok k hk).2,
   writeGate_fst_indep m (batteryKey b) d now r ok k t lv hk⟩

/-- Witness for C9: a battery-1 write leaves the pack key's rate-limit
timestamp untouched. -/
theorem key_independence_witness :
    ((writeBatteryData m0 batIdOne soc80 0 .healthFail true).2).lastWriteTime packKey
      = m0.lastWriteTime packKey :=
  (key_independence_spec m0 batIdOne soc80 0 .healthFail true packKey 0 []
    (by decide)).1

/-- Claim C10: the first write call for a fresh key is never rejected by the
rate limiter — when no prior accepted-write timestamp exists, the rate-limit
check is skipped entirely, so the call goes straight to the publish-mode
decision and its outcome does not depend on write_interval.  Stated for
battery and pack writes. -/
theorem first_write_never_rate_limited (m : Manager) (b : String)
    (d : List (String × Value)) (now : ℤ) (r : SetupResult) (ok : Bool)
    (w : ℤ) :
    (m.lastWriteTime (batteryKey b) = none →
      (writeBatteryData m b d now r ok).1 ≠ .rateLimited ∧
      (writeBatteryData (withInterval m w) b d now r ok).1
        = (writeBatteryData m b d now r ok).1) ∧
    (m.lastWriteTime packKey = none →
      (writePackData m d now r ok).1 ≠ .rateLimited ∧
      (writePackData (withInterval m w) d now r ok).1
        = (writePackData m d now r ok).1) :=
  ⟨fun h => writeGate_fresh m (batteryKey b) d now r ok w h,
   fun h => writeGate_fresh m packKey d now r ok w h⟩

/-- Witness for C10: the very first battery-1 write on a fresh manager is
not rate-limited. -/
theorem first_write_witness :
    (writeBatteryData m0 batIdOne soc80 0 .healthFail true).1 ≠ .rateLimited :=
  ((first_write_never_rate_limited m0 batIdOne soc80 0 .healthFail true 100).1
    (by decide)).1

/-- Witness for C1: with cached fields a=1, b=2, the incoming set a=3
differs on a field it contains, so the decision is true. -/
theorem shouldWrite_changed_prior_witness :
    (shouldWrite mC1 keyK [(fieldA, 3)]).1 = true :=
  ((shouldWrite_changed_prior mC1 keyK [(fieldA, 3)] [(fieldA, 1), (fieldB, 2)]
    (by decide) (by decide)).1).mpr (by decide)

/-- Witness for C4: with the attempt counter at the maximum and 301 seconds
elapsed since the last attempt, a new attempt is performed. -/
theorem tryReconnect_gate_witness :
    (tryReconnect mC4 301 .healthFail).1 = .failed ∨
    (tryReconnect mC4 301 .healthFail).1 = .succeeded :=
  (tryReconnect_gate_thm mC4 301 .healthFail).2.1 ⟨by decide, by decide⟩

/-- Witness for C6: a successful reconnect on the default-constructed
manager resets the delay to 5 and the attempt counter to 0. -/
theorem reconnectDelay_witness :
    ((tryReconnect mInit 10 .healthPass).2).reconnectDelay = 5 ∧
    ((tryReconnect mInit 10 .healthPass).2).reconnectAttempts = 0 :=
  (reconnectDelay_props mInit 10 .healthPass (by decide) (by decide) (by decide)
    (by decide)).2.2 (by decide)

end Seplos
